import Mathlib

/-!
Verification of the OpenNeuro MCP server (src/index.ts) against its
natural-language specification.

The whole program is a single TypeScript file.  We shallowly embed:

  * JSON values (`Json`) as exchanged with the remote GraphQL endpoint;
  * the serializers used by the code: `JSON.stringify(x)` (compact, for the
    outbound request body) and `JSON.stringify(x, null, 2)` (pretty, for the
    tool output text);
  * the outcome of the single outbound `fetch` call as an explicit
    environment value (`FetchOutcome`): either the call throws, or it yields
    a response with a status code together with the outcomes of the two
    possible body reads — `response.json()` and the subsequent
    `response.text()` attempted only when the JSON parse failed;
  * the relay `executeOpenNeuroGraphQLQuery` with its inner
    (exception-propagating) part `relayAttempt` and the outer try/catch;
  * the tool handler registered by `init`, and the HTTP `fetch` router;
  * the zod input schema for the tool.

JavaScript exceptions are modelled by `Except JsThrown`; a thrown value is
either an `Error` instance with a message or an arbitrary value rendered by
`String(error)`.
-/

set_option autoImplicit false

namespace OpenNeuroMCP

/-- JSON values.  Numbers are modelled as integers: every number that this
program itself constructs (status codes) is an integer, and nothing in the
relay inspects numeric values of the remote payload. -/
inductive Json where
  | null : Json
  | bool : Bool → Json
  | num : Int → Json
  | str : String → Json
  | arr : List Json → Json
  | obj : List (String × Json) → Json

/-- A value thrown by JavaScript code: an `Error` instance carrying a
message, or any other value, kept as its `String(error)` rendering. -/
inductive JsThrown where
  | error : String → JsThrown
  | value : String → JsThrown

/-- Lines 118-123 of the source: `error.message` when the thrown value is an
`Error` instance, `String(error)` otherwise. -/
def JsThrown.rendered : JsThrown → String
  | JsThrown.error m => m
  | JsThrown.value s => s

/-- Hexadecimal digit for `\uXXXX` escapes. -/
def hexDigit (n : Nat) : Char :=
  if n < 10 then Char.ofNat (48 + n) else Char.ofNat (87 + n)

/-- Four-digit hexadecimal rendering of a code unit below 0x20. -/
def hex4 (n : Nat) : String :=
  String.mk [hexDigit (n / 4096 % 16), hexDigit (n / 256 % 16),
             hexDigit (n / 16 % 16), hexDigit (n % 16)]

/-- Escaping of one character inside a JSON string literal, as performed by
`JSON.stringify`. -/
def escapeChar (c : Char) : String :=
  if c = '"' then "\\\""
  else if c = '\\' then "\\\\"
  else if c = '\n' then "\\n"
  else if c = '\r' then "\\r"
  else if c = '\t' then "\\t"
  else if c.toNat = 8 then "\\b"
  else if c.toNat = 12 then "\\f"
  else if c.toNat < 32 then "\\u" ++ hex4 c.toNat
  else String.singleton c

/-- JSON string literal: quotes around the escaped characters. -/
def escapeString (s : String) : String :=
  "\"" ++ String.join (s.toList.map escapeChar) ++ "\""

/-- Left brace, written through its code point. -/
def lbrace : String := "\x7b"

/-- Right brace, written through its code point. -/
def rbrace : String := "\x7d"

mutual

/-- `JSON.stringify(x)`: compact serialization, no whitespace. -/
def Json.stringify : Json → String
  | Json.null => "null"
  | Json.bool true => "true"
  | Json.bool false => "false"
  | Json.num n => toString n
  | Json.str s => escapeString s
  | Json.arr xs => "[" ++ stringifyArr xs ++ "]"
  | Json.obj ms => lbrace ++ stringifyObj ms ++ rbrace

/-- Comma-separated serialization of array elements. -/
def stringifyArr : List Json → String
  | [] => ""
  | [x] => Json.stringify x
  | x :: y :: xs => Json.stringify x ++ "," ++ stringifyArr (y :: xs)

/-- Comma-separated serialization of object members. -/
def stringifyObj : List (String × Json) → String
  | [] => ""
  | [(k, x)] => escapeString k ++ ":" ++ Json.stringify x
  | (k, x) :: m :: ms =>
      escapeString k ++ ":" ++ Json.stringify x ++ "," ++ stringifyObj (m :: ms)

end

/-- `n` spaces, for the pretty printer's indentation. -/
def spaces (n : Nat) : String :=
  String.mk (List.replicate n ' ')

mutual

/-- `JSON.stringify(x, null, 2)` at indentation level `ind`: containers with
members are broken over lines, members indented two further spaces, the
closing bracket back at level `ind`; empty containers are kept inline. -/
def prettyAux : Nat → Json → String
  | _, Json.null => "null"
  | _, Json.bool true => "true"
  | _, Json.bool false => "false"
  | _, Json.num n => toString n
  | _, Json.str s => escapeString s
  | _, Json.arr [] => "[]"
  | ind, Json.arr (x :: xs) =>
      "[\n" ++ prettyArr (ind + 2) (x :: xs) ++ "\n" ++ spaces ind ++ "]"
  | _, Json.obj [] => lbrace ++ rbrace
  | ind, Json.obj (m :: ms) =>
      lbrace ++ "\n" ++ prettyObj (ind + 2) (m :: ms) ++ "\n" ++ spaces ind ++ rbrace

/-- Pretty-printed array elements, one per line. -/
def prettyArr : Nat → List Json → String
  | _, [] => ""
  | ind, [x] => spaces ind ++ prettyAux ind x
  | ind, x :: y :: xs =>
      spaces ind ++ prettyAux ind x ++ ",\n" ++ prettyArr ind (y :: xs)

/-- Pretty-printed object members, one per line, `"key": value`. -/
def prettyObj : Nat → List (String × Json) → String
  | _, [] => ""
  | ind, [(k, x)] => spaces ind ++ escapeString k ++ ": " ++ prettyAux ind x
  | ind, (k, x) :: m :: ms =>
      spaces ind ++ escapeString k ++ ": " ++ prettyAux ind x ++ ",\n"
        ++ prettyObj ind (m :: ms)

end

/-- `JSON.stringify(result, null, 2)`, as used for the tool output text. -/
def Json.stringifyPretty (j : Json) : String :=
  prettyAux 0 j

/-- The fixed remote endpoint (line 15 of the source). -/
def OPENNEURO_GRAPHQL_ENDPOINT : String := "https://openneuro.org/crn/graphql"

/-- The headers built at lines 62-67 of the source. -/
def requestHeaders : List (String × String) :=
  [("Content-Type", "application/json"),
   ("User-Agent",
    "MCPOpenNeuroServer/0.1.0 (ModelContextProtocol; +https://modelcontextprotocol.io)")]

/-- Lines 69-72 of the source: the body starts as an object holding `query`
alone, and a `variables` member is appended only when the optional mapping
(called `vars` here, since its source name is reserved in Lean) was supplied;
JavaScript object insertion order puts `query` first. -/
def bodyData (query : String) (vars : Option (List (String × Json))) :
    List (String × Json) :=
  ("query", Json.str query) ::
    (match vars with
     | none => []
     | some vs => [("variables", Json.obj vs)])

/-- The one HTTP request issued by the relay (lines 76-80 of the source). -/
structure OutboundRequest where
  url : String
  method : String
  headers : List (String × String)
  body : String

/-- The request the relay sends for a given query and vars. -/
def theRequest (query : String) (vars : Option (List (String × Json))) :
    OutboundRequest :=
  { url := OPENNEURO_GRAPHQL_ENDPOINT
    method := "POST"
    headers := requestHeaders
    body := Json.stringify (Json.obj (bodyData query vars)) }

/-- A response delivered by `fetch`: the status code, the outcome of
`await response.json()`, and the outcome of the `await response.text()`
that the code performs only after the JSON parse has failed (by then the
Fetch API has already consumed the body, so this read may itself throw). -/
structure FetchResponse where
  status : Nat
  jsonRead : Except JsThrown Json
  textRead : Except JsThrown String

/-- `response.ok`: status in the inclusive range 200-299. -/
def FetchResponse.okStatus (r : FetchResponse) : Bool :=
  decide (200 ≤ r.status) && decide (r.status < 300)

/-- Outcome of the one outbound call: either `fetch` itself throws
(network, DNS, timeout), or it resolves to a response. -/
inductive FetchOutcome where
  | thrown : JsThrown → FetchOutcome
  | response : FetchResponse → FetchOutcome

/-- The envelope built at lines 90-98 of the source for a body that is not
parseable as JSON. -/
def nonJsonEnvelope (status : Nat) (errorText : String) : Json :=
  Json.obj [("errors", Json.arr [Json.obj
    [("message",
      Json.str ("OpenNeuro API Error " ++ toString status ++ ": Non-JSON response.")),
     ("extensions", Json.obj
       [("statusCode", Json.num (Int.ofNat status)),
        ("responseText", Json.str (jsSlice errorText 1000))])]])]
where
  /-- `errorText.slice(0, 1000)` (line 95 of the source). -/
  jsSlice (s : String) (n : Nat) : String := List.asString (s.toList.take n)

/-- The envelope built at lines 103-111 of the source for a non-success
status with a parseable JSON body. -/
def httpErrorEnvelope (status : Nat) (responseBody : Json) : Json :=
  Json.obj [("errors", Json.arr [Json.obj
    [("message", Json.str ("OpenNeuro API HTTP Error " ++ toString status)),
     ("extensions", Json.obj
       [("statusCode", Json.num (Int.ofNat status)),
        ("responseBody", responseBody)])]])]

/-- The envelope built at lines 124-131 of the source when the outer catch
fires. -/
def clientErrorEnvelope (message : String) : Json :=
  Json.obj [("errors", Json.arr [Json.obj
    [("message", Json.str message),
     ("extensions", Json.obj [("clientError", Json.bool true)])]])]

/-- The body of the `try` block of `executeOpenNeuroGraphQLQuery`
(lines 61-114 of the source), with exceptions propagating: a thrown `fetch`
propagates; a failed `response.json()` leads to `response.text()`, whose own
failure propagates and whose success yields the non-JSON envelope; a parsed
body is returned as-is on a success status and wrapped in the HTTP-error
envelope otherwise. -/
def relayAttempt (outcome : FetchOutcome) : Except JsThrown Json :=
  match outcome with
  | FetchOutcome.thrown e => Except.error e
  | FetchOutcome.response r =>
    match r.jsonRead with
    | Except.error _ =>
      match r.textRead with
      | Except.error e2 => Except.error e2
      | Except.ok errorText => Except.ok (nonJsonEnvelope r.status errorText)
    | Except.ok responseBody =>
      if r.okStatus then Except.ok responseBody
      else Except.ok (httpErrorEnvelope r.status responseBody)

/-- The full relay (lines 60-133 of the source): run the `try` body and, when
anything was thrown, return the client-error envelope built in the `catch`
block.  Also returns the list of outbound requests issued during the call:
the single `fetch` at line 76 is reached unconditionally inside the `try`
(serializing `bodyData` cannot throw on these values) and is never retried. -/
def relayRun (query : String) (vars : Option (List (String × Json)))
    (outcome : FetchOutcome) : Json × List OutboundRequest :=
  (match relayAttempt outcome with
   | Except.ok j => j
   | Except.error e => clientErrorEnvelope e.rendered,
   [theRequest query vars])

/-- The relay's returned value alone. -/
def executeOpenNeuroGraphQLQuery (query : String)
    (vars : Option (List (String × Json))) (outcome : FetchOutcome) : Json :=
  (relayRun query vars outcome).1

/-- One content block of a tool result. -/
structure ContentBlock where
  type : String
  text : String

/-- The value returned by the tool handler. -/
structure ToolOutput where
  content : List ContentBlock

/-- The tool handler registered by `init` (lines 40-55 of the source):
await the relay, then wrap the pretty-printed result in a single text
content block. -/
def toolInvoke (query : String) (vars : Option (List (String × Json)))
    (outcome : FetchOutcome) : ToolOutput :=
  { content := [{ type := "text"
                  text := Json.stringifyPretty
                    (executeOpenNeuroGraphQLQuery query vars outcome) }] }

/-- The tool handler with exception propagation made explicit: the handler
body awaits the relay, whose own `try`/`catch` converts every thrown value
into the client-error envelope, so the composition is built from
`relayAttempt` with the catch applied before the wrapping. -/
def toolRunE (query : String) (vars : Option (List (String × Json)))
    (outcome : FetchOutcome) : Except JsThrown ToolOutput :=
  (match relayAttempt outcome with
   | Except.ok j => Except.ok j
   | Except.error e => Except.ok (clientErrorEnvelope e.rendered) :
     Except JsThrown Json).map
    (fun result =>
      { content := [{ type := "text", text := Json.stringifyPretty result }] })

/-- The name under which `init` registers its single tool (line 22). -/
def toolName : String := "openneuro_graphql_query"

/-- The tools registered by `init`: exactly one call to `server.tool`. -/
def registeredToolNames : List String := [toolName]

/-- Result of the HTTP `fetch` router: either the request is handed to the
SSE transport, or a plain response is produced. -/
inductive RouteResult where
  | sse : RouteResult
  | plain : Nat → String → String → RouteResult

/-- The body of the 404 fallback response (line 166 of the source). -/
def notFoundBody : String :=
  "OpenNeuro MCP Server - Path not found.\nAvailable MCP paths:\n- /sse (for Server-Sent Events transport)"

/-- `s.startsWith(pre)` of JavaScript, modelled over the character lists so
that it evaluates inside the kernel. -/
def jsStartsWith (s pre : String) : Bool :=
  List.isPrefixOf pre.toList s.toList

/-- The exported `fetch` handler (lines 150-173 of the source), as a function
of the request's pathname. -/
def fetchRoute (pathname : String) : RouteResult :=
  if pathname == "/sse" || jsStartsWith pathname "/sse/" then
    RouteResult.sse
  else
    RouteResult.plain 404 "text/plain" notFoundBody

/-- A validated tool input. -/
structure QueryRequest where
  query : String
  vars : Option (List (String × Json))

/-- Lookup of a key in a JSON object member list. -/
def lookupKey (key : String) : List (String × Json) → Option Json
  | [] => none
  | (k, v) :: ms => if k = key then some v else lookupKey key ms

/-- The zod input schema of the tool (lines 30-39 of the source):
`query: z.string()` — any string, required — and
`vars: z.record(z.any()).optional()` — when present, any object. -/
def validateQueryRequest (input : Json) : Option QueryRequest :=
  match input with
  | Json.obj members =>
    match lookupKey "query" members with
    | some (Json.str q) =>
      match lookupKey "variables" members with
      | none => some { query := q, vars := none }
      | some (Json.obj vs) => some { query := q, vars := some vs }
      | some _ => none
    | _ => none
  | _ => none


/-! ## Claims -/

/-- C1: for every tool invocation — any query string, any optional variables
mapping, and any outcome of the outbound HTTP call, including a thrown
transport error — the invocation returns a structured JSON value and never
propagates an exception to its caller. -/
theorem relay_never_throws (q : String) (v : Option (List (String × Json)))
    (o : FetchOutcome) :
    ∃ j : Json,
      toolRunE q v o =
        Except.ok { content := [{ type := "text", text := Json.stringifyPretty j }] }
      ∧ executeOpenNeuroGraphQLQuery q v o = j := by
  cases h : relayAttempt o with
  | ok j =>
      exact ⟨j, by simp [toolRunE, h, Except.map],
        by simp [executeOpenNeuroGraphQLQuery, relayRun, h]⟩
  | error e =>
      exact ⟨clientErrorEnvelope e.rendered, by simp [toolRunE, h, Except.map],
        by simp [executeOpenNeuroGraphQLQuery, relayRun, h]⟩

/-- C2: every invocation with a non-empty query issues exactly one outbound
POST to `https://openneuro.org/crn/graphql`, whose body is the JSON encoding
of the object holding `query` — plus a `variables` member exactly when the
variables mapping was supplied, and no `variables` key at all otherwise. -/
theorem one_post_request (q : String) (v : Option (List (String × Json)))
    (o : FetchOutcome) (hq : q ≠ "") :
    (relayRun q v o).2 = [theRequest q v]
    ∧ (theRequest q v).url = "https://openneuro.org/crn/graphql"
    ∧ (theRequest q v).method = "POST"
    ∧ (theRequest q v).body = Json.stringify (Json.obj (bodyData q v))
    ∧ (v = none → bodyData q v = [("query", Json.str q)])
    ∧ (v = none → ¬ "variables" ∈ (bodyData q v).map Prod.fst)
    ∧ (∀ vs, v = some vs →
        bodyData q v = [("query", Json.str q), ("variables", Json.obj vs)]) := by
  refine ⟨rfl, rfl, rfl, rfl, ?_, ?_, ?_⟩
  · intro hv; subst hv; rfl
  · intro hv; subst hv; simp [bodyData]
  · intro vs hv; subst hv; rfl

/-- C2 witness at a concrete invocation. -/
theorem one_post_request_witness :
    ("query IntrospectionQuery" : String) ≠ ""
    ∧ (relayRun "query IntrospectionQuery" none
        (FetchOutcome.thrown (JsThrown.error "refused"))).2 =
        [theRequest "query IntrospectionQuery" none] :=
  ⟨by decide,
   (one_post_request "query IntrospectionQuery" none
      (FetchOutcome.thrown (JsThrown.error "refused")) (by decide)).1⟩

/-- C3: an HTTP success status with a JSON-parseable body is passed through
unmodified, and the tool output is the pretty-printed serialization of that
very body (so parsing the output text recovers the body exactly, whether or
not it contains a GraphQL-level `errors` array). -/
theorem success_passthrough (q : String) (v : Option (List (String × Json)))
    (s : Nat) (body : Json) (t : Except JsThrown String)
    (h1 : 200 ≤ s) (h2 : s < 300) :
    executeOpenNeuroGraphQLQuery q v
        (FetchOutcome.response ⟨s, Except.ok body, t⟩) = body
    ∧ toolInvoke q v (FetchOutcome.response ⟨s, Except.ok body, t⟩) =
        { content := [{ type := "text", text := Json.stringifyPretty body }] } := by
  have hok : FetchResponse.okStatus ⟨s, Except.ok body, t⟩ = true := by
    simp [FetchResponse.okStatus, h1, h2]
  constructor
  · simp [executeOpenNeuroGraphQLQuery, relayRun, relayAttempt, hok]
  · simp [toolInvoke, executeOpenNeuroGraphQLQuery, relayRun, relayAttempt, hok]

/-- C3 witness: the spec's example, HTTP 200 with the ds000224 payload. -/
theorem success_passthrough_witness :
    (200 ≤ 200 ∧ 200 < 300)
    ∧ executeOpenNeuroGraphQLQuery "q" none
        (FetchOutcome.response ⟨200,
          Except.ok (Json.obj [("data", Json.obj [("dataset",
            Json.obj [("id", Json.str "ds000224")])])]),
          Except.error (JsThrown.error "Body has already been used")⟩) =
        Json.obj [("data", Json.obj [("dataset",
          Json.obj [("id", Json.str "ds000224")])])] :=
  ⟨⟨by decide, by decide⟩,
   (success_passthrough "q" none 200
      (Json.obj [("data", Json.obj [("dataset",
        Json.obj [("id", Json.str "ds000224")])])])
      (Except.error (JsThrown.error "Body has already been used"))
      (by decide) (by decide)).1⟩

/-- C4: a non-success status with a JSON-parseable body yields the
HTTP-error envelope carrying the status code and the full parsed body. -/
theorem http_error_envelope_shape (q : String)
    (v : Option (List (String × Json))) (s : Nat) (body : Json)
    (t : Except JsThrown String) (h : ¬ (200 ≤ s ∧ s < 300)) :
    executeOpenNeuroGraphQLQuery q v
        (FetchOutcome.response ⟨s, Except.ok body, t⟩) =
      Json.obj [("errors", Json.arr [Json.obj
        [("message", Json.str ("OpenNeuro API HTTP Error " ++ toString s)),
         ("extensions", Json.obj
           [("statusCode", Json.num (Int.ofNat s)),
            ("responseBody", body)])]])] := by
  have hok : FetchResponse.okStatus ⟨s, Except.ok body, t⟩ = false := by
    simp only [FetchResponse.okStatus]
    rw [Bool.and_eq_false_iff]
    simp only [decide_eq_false_iff_not]
    omega
  simp [executeOpenNeuroGraphQLQuery, relayRun, relayAttempt, hok,
    httpErrorEnvelope]

/-- C4 witness: the spec's example, HTTP 500 with body `"message": "internal"`. -/
theorem http_error_envelope_witness :
    ¬ (200 ≤ 500 ∧ 500 < 300)
    ∧ executeOpenNeuroGraphQLQuery "q" none
        (FetchOutcome.response ⟨500,
          Except.ok (Json.obj [("message", Json.str "internal")]),
          Except.error (JsThrown.error "Body has already been used")⟩) =
      Json.obj [("errors", Json.arr [Json.obj
        [("message", Json.str "OpenNeuro API HTTP Error 500"),
         ("extensions", Json.obj
           [("statusCode", Json.num 500),
            ("responseBody", Json.obj [("message", Json.str "internal")])])]])] :=
  ⟨by decide,
   http_error_envelope_shape "q" none 500
     (Json.obj [("message", Json.str "internal")])
     (Except.error (JsThrown.error "Body has already been used")) (by decide)⟩

/-- C5: when the body is not parseable as JSON and the subsequent raw-text
read succeeds, the relay returns the non-JSON envelope with the status code
and the raw body truncated to at most 1000 characters. -/
theorem non_json_envelope_shape (q : String)
    (v : Option (List (String × Json))) (s : Nat) (e : JsThrown)
    (errorText : String) :
    executeOpenNeuroGraphQLQuery q v
        (FetchOutcome.response ⟨s, Except.error e, Except.ok errorText⟩) =
      Json.obj [("errors", Json.arr [Json.obj
        [("message",
          Json.str ("OpenNeuro API Error " ++ toString s ++ ": Non-JSON response.")),
         ("extensions", Json.obj
           [("statusCode", Json.num (Int.ofNat s)),
            ("responseText",
             Json.str (nonJsonEnvelope.jsSlice errorText 1000))])]])]
    ∧ (nonJsonEnvelope.jsSlice errorText 1000).length ≤ 1000 := by
  constructor
  · simp [executeOpenNeuroGraphQLQuery, relayRun, relayAttempt, nonJsonEnvelope]
  · show (List.asString (errorText.toList.take 1000)).length ≤ 1000
    rw [List.length_asString]
    exact List.length_take_le 1000 errorText.toList

/-- C6: when the outbound call itself throws with a non-empty message, the
tool returns — without throwing — the client-error envelope carrying that
message and `extensions.clientError = true`. -/
theorem transport_failure_envelope (q : String)
    (v : Option (List (String × Json))) (e : JsThrown)
    (he : e.rendered ≠ "") :
    executeOpenNeuroGraphQLQuery q v (FetchOutcome.thrown e) =
      Json.obj [("errors", Json.arr [Json.obj
        [("message", Json.str e.rendered),
         ("extensions", Json.obj [("clientError", Json.bool true)])]])]
    ∧ toolRunE q v (FetchOutcome.thrown e) =
      Except.ok { content :=
        [{ type := "text"
           text := Json.stringifyPretty (clientErrorEnvelope e.rendered) }] }
    ∧ e.rendered ≠ "" := by
  refine ⟨?_, ?_, he⟩
  · simp [executeOpenNeuroGraphQLQuery, relayRun, relayAttempt,
      clientErrorEnvelope]
  · simp [toolRunE, relayAttempt, Except.map]

/-- C6 witness: a connection-refused transport failure. -/
theorem transport_failure_envelope_witness :
    (JsThrown.error "connection refused").rendered ≠ ""
    ∧ executeOpenNeuroGraphQLQuery "q" none
        (FetchOutcome.thrown (JsThrown.error "connection refused")) =
      Json.obj [("errors", Json.arr [Json.obj
        [("message", Json.str "connection refused"),
         ("extensions", Json.obj [("clientError", Json.bool true)])]])] :=
  ⟨by decide,
   (transport_failure_envelope "q" none
      (JsThrown.error "connection refused") (by decide)).1⟩


/-- C7 counterexample: the registered tool list is not `["graphql_query"]` —
the single tool is registered under the name `openneuro_graphql_query`. -/
theorem tool_name_not_graphql_query :
    registeredToolNames ≠ ["graphql_query"] := by decide

/-- C7 (amended): the single operation registered with the MCP server is
named `openneuro_graphql_query`, and its output is a single text content
block containing the pretty-printed JSON serialization of the result. -/
theorem single_tool_registration (q : String)
    (v : Option (List (String × Json))) (o : FetchOutcome) :
    registeredToolNames = ["openneuro_graphql_query"]
    ∧ toolInvoke q v o =
        { content :=
          [{ type := "text"
             text := Json.stringifyPretty
               (executeOpenNeuroGraphQLQuery q v o) }] } :=
  ⟨rfl, rfl⟩

/-- C8: a pathname that is neither `/sse` nor under `/sse/` gets a 404
plain-text response whose body mentions `/sse`; `/sse` and its sub-paths are
handed to the SSE transport. -/
theorem route_dispatch (p : String) :
    (p ≠ "/sse" → jsStartsWith p "/sse/" = false →
      fetchRoute p = RouteResult.plain 404 "text/plain" notFoundBody
      ∧ ∃ pre post, notFoundBody = pre ++ "/sse" ++ post)
    ∧ ((p = "/sse" ∨ jsStartsWith p "/sse/" = true) →
      fetchRoute p = RouteResult.sse) := by
  constructor
  · intro h1 h2
    have hb : (p == "/sse") = false := by simp [h1]
    refine ⟨by simp [fetchRoute, hb, h2],
      "OpenNeuro MCP Server - Path not found.\nAvailable MCP paths:\n- ",
      " (for Server-Sent Events transport)", rfl⟩
  · intro h
    rcases h with h | h
    · subst h; simp [fetchRoute]
    · simp [fetchRoute, h]

/-- C8 witness: `/tools` is rejected with the 404 response; `/sse/session`
is handed to the SSE transport. -/
theorem route_dispatch_witness :
    (("/tools" : String) ≠ "/sse" ∧ jsStartsWith "/tools" "/sse/" = false)
    ∧ fetchRoute "/tools" = RouteResult.plain 404 "text/plain" notFoundBody
    ∧ fetchRoute "/sse/session" = RouteResult.sse :=
  ⟨⟨by decide, by decide⟩,
   ((route_dispatch "/tools").1 (by decide) (by decide)).1,
   (route_dispatch "/sse/session").2 (Or.inr (by decide))⟩

/-- C9 counterexample: the input schema does not admit only non-empty query
strings — the object whose `query` member is the empty string validates. -/
theorem empty_query_admitted :
    ¬ (∀ j r, validateQueryRequest j = some r → r.query ≠ "") := by
  intro h
  exact h (Json.obj [("query", Json.str "")])
    { query := "", vars := none } rfl rfl

/-- C9 (amended): the `query` field is required and must be a string — every
validated request's query comes from a string-valued `query` member of the
input — but the schema admits every string, the empty one included. -/
theorem query_required_string :
    (∀ j r, validateQueryRequest j = some r →
      ∃ ms, j = Json.obj ms ∧ lookupKey "query" ms = some (Json.str r.query))
    ∧ (∀ q, validateQueryRequest (Json.obj [("query", Json.str q)]) =
        some { query := q, vars := none })
    ∧ validateQueryRequest (Json.obj []) = none := by
  refine ⟨?_, ?_, rfl⟩
  · intro j r h
    unfold validateQueryRequest at h
    split at h
    next ms =>
      refine ⟨ms, rfl, ?_⟩
      split at h
      next q hq =>
        split at h
        · cases h; exact hq
        · cases h; exact hq
        · exact absurd h (by simp)
      next hq => exact absurd h (by simp)
    next => exact absurd h (by simp)
  · intro q
    simp [validateQueryRequest, lookupKey]

/-- C9 witness: a concrete object with a string query validates, and the
theorem's first part recovers the member it came from. -/
theorem query_required_string_witness :
    validateQueryRequest (Json.obj [("query", Json.str "introspect")]) =
      some { query := "introspect", vars := none }
    ∧ ∃ ms, Json.obj [("query", Json.str "introspect")] = Json.obj ms
        ∧ lookupKey "query" ms = some (Json.str "introspect") :=
  ⟨query_required_string.2.1 "introspect",
   query_required_string.1 (Json.obj [("query", Json.str "introspect")])
     { query := "introspect", vars := none } rfl⟩

/-- C10: when the JSON parse failed and the subsequent raw-text read itself
throws (as the Fetch API does for an already-consumed body), the invocation
still returns a structured value — the transport-failure envelope with
`extensions.clientError = true` — rather than the non-JSON envelope or an
exception. -/
theorem consumed_body_read_fallback (q : String)
    (v : Option (List (String × Json))) (s : Nat) (e1 e2 : JsThrown) :
    executeOpenNeuroGraphQLQuery q v
        (FetchOutcome.response ⟨s, Except.error e1, Except.error e2⟩) =
      Json.obj [("errors", Json.arr [Json.obj
        [("message", Json.str e2.rendered),
         ("extensions", Json.obj [("clientError", Json.bool true)])]])]
    ∧ toolRunE q v
        (FetchOutcome.response ⟨s, Except.error e1, Except.error e2⟩) =
      Except.ok { content :=
        [{ type := "text"
           text := Json.stringifyPretty (clientErrorEnvelope e2.rendered) }] } := by
  constructor
  · simp [executeOpenNeuroGraphQLQuery, relayRun, relayAttempt,
      clientErrorEnvelope]
  · simp [toolRunE, relayAttempt, Except.map]

end OpenNeuroMCP
